import Mathlib

/-!
Verification of the payments-engine core (`src/main.rs`).

Shallow embedding of the transaction state machine and ledger of the Rust
payments engine.  Client ids (`u16`) and transaction ids (`u32`) are modelled
as `Nat` (they are only used as map keys and compared for equality); exact
decimal amounts (`rust_decimal::Decimal`) are modelled as `ℚ` (the code only
adds, subtracts and compares amounts, so the arithmetic is exact in both).
The two `HashMap`s of `PaymentEngine` are modelled as functions
`Nat → Option _`.  Rust panics (`unwrap` on `None`, failed `assert!`) are
modelled by returning `none` from the processing functions: a `none` result
means the process aborts at that record.
-/

/-- Transaction status from the source: `OK`, `Disputed`, `Chargedback`. -/
inductive TransactionStatus where
  | OK
  | Disputed
  | Chargedback
deriving DecidableEq, Repr

/-- Transaction type from the source: the five record kinds. -/
inductive TransactionType where
  | Deposit
  | Withdrawal
  | Dispute
  | Resolve
  | Chargeback
deriving DecidableEq, Repr

/-- Rust `struct Transaction` from the source: type, client id, tx id, optional
amount, and a mutable status. -/
structure Transaction where
  tx_type : TransactionType
  client_id : Nat
  tx_id : Nat
  amount : Option ℚ
  status : TransactionStatus
deriving DecidableEq, Repr

/-- Rust `struct Account` from the source. -/
structure Account where
  client_id : Nat
  num_transactions : Nat
  funds_available : ℚ
  funds_held : ℚ
  funds_total : ℚ
  locked : Bool
deriving DecidableEq, Repr

/-- Rust `struct PaymentEngine` from the source: the two `HashMap`s, modelled as
functions from keys to optional values. -/
structure PaymentEngine where
  accounts : Nat → Option Account
  transactions : Nat → Option Transaction

/-- Point update of a map, modelling `HashMap::insert` (replaces any previous value). -/
def updMap {α : Type} (m : Nat → Option α) (k : Nat) (v : α) : Nat → Option α :=
  fun k' => if k' = k then some v else m k'

/-- Rust `PaymentEngine::process_transaction` from the source, one `match` arm
per transaction type.  The account's `num_transactions` is incremented before
the `match`, on every path.  `none` models a panic: the `unwrap` of a missing
account or amount, or the failed `assert!` on a duplicate deposit `tx_id`. -/
def process_transaction (e : PaymentEngine) (t : Transaction) : Option PaymentEngine :=
  match e.accounts t.client_id with
  | none => none
  | some acct0 =>
    let acct : Account := { acct0 with num_transactions := acct0.num_transactions + 1 }
    match t.tx_type with
    | TransactionType.Deposit =>
      if (e.transactions t.tx_id).isSome then none
      else
        match t.amount with
        | none => none
        | some amount =>
          let acct2 := { acct with funds_available := acct.funds_available + amount,
                                   funds_total := acct.funds_total + amount }
          some { accounts := updMap e.accounts t.client_id acct2,
                 transactions := updMap e.transactions t.tx_id t }
    | TransactionType.Withdrawal =>
      match t.amount with
      | none => none
      | some amount =>
        if acct.funds_available ≥ amount then
          let acct2 := { acct with funds_available := acct.funds_available - amount,
                                   funds_total := acct.funds_total - amount }
          some { e with accounts := updMap e.accounts t.client_id acct2 }
        else
          some { e with accounts := updMap e.accounts t.client_id acct }
    | TransactionType.Dispute =>
      match e.transactions t.tx_id with
      | none => some { e with accounts := updMap e.accounts t.client_id acct }
      | some orig =>
        if orig.status = TransactionStatus.OK ∧ orig.client_id = t.client_id then
          match orig.amount with
          | none => none
          | some amount =>
            let acct2 := { acct with funds_available := acct.funds_available - amount,
                                     funds_held := acct.funds_held + amount }
            some { accounts := updMap e.accounts t.client_id acct2,
                   transactions := updMap e.transactions t.tx_id
                     { orig with status := TransactionStatus.Disputed } }
        else some { e with accounts := updMap e.accounts t.client_id acct }
    | TransactionType.Resolve =>
      match e.transactions t.tx_id with
      | none => some { e with accounts := updMap e.accounts t.client_id acct }
      | some orig =>
        if orig.status = TransactionStatus.Disputed ∧ orig.client_id = t.client_id then
          match orig.amount with
          | none => none
          | some amount =>
            let acct2 := { acct with funds_available := acct.funds_available + amount,
                                     funds_held := acct.funds_held - amount }
            some { accounts := updMap e.accounts t.client_id acct2,
                   transactions := updMap e.transactions t.tx_id
                     { orig with status := TransactionStatus.OK } }
        else some { e with accounts := updMap e.accounts t.client_id acct }
    | TransactionType.Chargeback =>
      match e.transactions t.tx_id with
      | none => some { e with accounts := updMap e.accounts t.client_id acct }
      | some orig =>
        if orig.status = TransactionStatus.Disputed ∧ orig.client_id = t.client_id then
          match orig.amount with
          | none => none
          | some amount =>
            let acct2 := { acct with funds_available := acct.funds_available + amount,
                                     funds_held := acct.funds_held - amount,
                                     locked := true }
            some { accounts := updMap e.accounts t.client_id acct2,
                   transactions := updMap e.transactions t.tx_id
                     { orig with status := TransactionStatus.Chargedback } }
        else some { e with accounts := updMap e.accounts t.client_id acct }

/-- The fresh `Account` built in `import_csv` for a previously unseen client:
all balances zero, zero transaction count, `locked = false`. -/
def initial_account (c : Nat) : Account :=
  { client_id := c, num_transactions := 0, funds_available := 0, funds_held := 0,
    funds_total := 0, locked := false }

/-- The body of the `import_csv` loop for one already-parsed record: create
the account if the client is unseen, then process the transaction. -/
def import_record (e : PaymentEngine) (t : Transaction) : Option PaymentEngine :=
  let e' := if (e.accounts t.client_id).isSome then e
            else { e with accounts := updMap e.accounts t.client_id (initial_account t.client_id) }
  process_transaction e' t

/-- Rust `PaymentEngine::import_csv` over an already-parsed record list: fold
`import_record` over the input in order, aborting on the first panic. -/
def import_csv : PaymentEngine → List Transaction → Option PaymentEngine
  | e, [] => some e
  | e, t :: ts =>
    match import_record e t with
    | none => none
    | some e' => import_csv e' ts

/-- Rust `PaymentEngine::new()`: both maps empty. -/
def empty_engine : PaymentEngine :=
  { accounts := fun _ => none, transactions := fun _ => none }

/-- A parsed record as produced by `Transaction::try_from`: status starts
`OK`. -/
def mk_tx (ty : TransactionType) (c tx : Nat) (a : Option ℚ) : Transaction :=
  { tx_type := ty, client_id := c, tx_id := tx, amount := a, status := TransactionStatus.OK }

def demo_deposit : Transaction := mk_tx TransactionType.Deposit 1 1 (some 5)

def demo_acct : Account :=
  { client_id := 1, num_transactions := 1, funds_available := 5, funds_held := 0,
    funds_total := 5, locked := false }

def demo_engine : PaymentEngine :=
  { accounts := updMap (fun _ => none) 1 demo_acct,
    transactions := updMap (fun _ => none) 1 demo_deposit }

def demo_disputed : Transaction := { demo_deposit with status := TransactionStatus.Disputed }

def demo_acct_disputed : Account :=
  { client_id := 1, num_transactions := 2, funds_available := 0, funds_held := 5,
    funds_total := 5, locked := false }

def demo_engine_disputed : PaymentEngine :=
  { accounts := updMap (fun _ => none) 1 demo_acct_disputed,
    transactions := updMap (fun _ => none) 1 demo_disputed }

def demo_acct_zero : Account :=
  { client_id := 1, num_transactions := 2, funds_available := 0, funds_held := 0,
    funds_total := 0, locked := false }

def demo_engine_zero : PaymentEngine :=
  { accounts := updMap (fun _ => none) 1 demo_acct_zero,
    transactions := updMap (fun _ => none) 1 demo_deposit }

/-- The balance invariant: every stored account satisfies
`available + held = total`. -/
def BalancedLedger (e : PaymentEngine) : Prop :=
  ∀ c acct, e.accounts c = some acct →
    acct.funds_available + acct.funds_held = acct.funds_total

def demo_acct_locked : Account :=
  { client_id := 1, num_transactions := 3, funds_available := 5, funds_held := 0,
    funds_total := 5, locked := true }

def demo_engine_locked : PaymentEngine :=
  { accounts := updMap (fun _ => none) 1 demo_acct_locked,
    transactions := updMap (fun _ => none) 1 demo_deposit }

/-- Forget an account's `locked` flag (for stating that processing never
reads it). -/
def erase_locked (a : Account) : Account :=
  { a with locked := false }

/-- Two engines agree except possibly in account `c`'s `locked` flag. -/
def agree_except_locked (c : Nat) (e1 e2 : PaymentEngine) : Prop :=
  e1.transactions = e2.transactions ∧
  (∀ c', c' ≠ c → e1.accounts c' = e2.accounts c') ∧
  (e1.accounts c).map erase_locked = (e2.accounts c).map erase_locked

/-- Lift `agree_except_locked` to process results: both panic, or both
succeed with states again agreeing except in account `c`'s `locked` flag. -/
def opt_agree_except_locked (c : Nat) :
    Option PaymentEngine → Option PaymentEngine → Prop
  | none, none => True
  | some e1, some e2 => agree_except_locked c e1 e2
  | _, _ => False

def demo_acct_frozen : Account := { demo_acct with locked := true }

def demo_engine_frozen : PaymentEngine :=
  { accounts := updMap (fun _ => none) 1 demo_acct_frozen,
    transactions := updMap (fun _ => none) 1 demo_deposit }

/-- Scenario A sanity check: a single Deposit(1,1,5) yields available=5,
held=0, total=5, unlocked. -/
theorem scenario_a_single_deposit :
    ((import_csv empty_engine [mk_tx TransactionType.Deposit 1 1 (some 5)]).bind
      (fun e => e.accounts 1)) =
    some { client_id := 1, num_transactions := 1, funds_available := 5, funds_held := 0,
           funds_total := 5, locked := false } := by
  norm_num [import_csv, import_record, process_transaction, updMap, empty_engine, mk_tx,
    initial_account]
-- appended to defs for testing

@[simp]
theorem updMap_self {α : Type} (m : Nat → Option α) (k : Nat) (v : α) :
    updMap m k v k = some v := by
  simp [updMap]

@[simp]
theorem updMap_ne {α : Type} (m : Nat → Option α) (k : Nat) (v : α) (k' : Nat)
    (h : k' ≠ k) : updMap m k v k' = m k' := by
  simp [updMap, h]

/-- C1: evaluating the code on Deposit(1,1,5), Dispute(1,1), Chargeback(1,1):
the final account has available=5, held=0, total=5, locked=true (the
chargeback arm credits `available` and leaves `total` unchanged), not the
0/0/0/locked state Scenario E claims. -/
theorem scenario_e_on_code :
    ((import_csv empty_engine
        [mk_tx TransactionType.Deposit 1 1 (some 5),
         mk_tx TransactionType.Dispute 1 1 none,
         mk_tx TransactionType.Chargeback 1 1 none]).bind
      (fun e => e.accounts 1)) =
    some { client_id := 1, num_transactions := 3, funds_available := 5, funds_held := 0,
           funds_total := 5, locked := true } := by
  norm_num [import_csv, import_record, process_transaction, updMap, empty_engine, mk_tx,
    initial_account]

/-- C2 counterexample: two deposits with the same `tx_id`: the run aborts
(`assert!` panic, modelled as `none`) instead of continuing. -/
theorem duplicate_deposit_aborts_run :
    import_csv empty_engine
      [mk_tx TransactionType.Deposit 1 1 (some 5),
       mk_tx TransactionType.Deposit 1 1 (some 3)] = none := by
  norm_num [import_csv, import_record, process_transaction, updMap, empty_engine, mk_tx,
    initial_account]

/-- C2 amended: a Deposit whose `tx_id` is already stored makes
`process_transaction` panic (failed `assert!`), aborting the process. -/
theorem duplicate_deposit_panics (e : PaymentEngine) (t : Transaction)
    (ht : t.tx_type = TransactionType.Deposit)
    (hdup : (e.transactions t.tx_id).isSome = true) :
    process_transaction e t = none := by
  cases h : e.accounts t.client_id <;>
    simp [process_transaction, h, ht, hdup]

/-- C2 witness: the amended theorem applied at a concrete engine that already
stores deposit 1. -/
theorem duplicate_deposit_panics_witness :
    process_transaction demo_engine (mk_tx TransactionType.Deposit 1 1 (some 3)) = none :=
  duplicate_deposit_panics demo_engine (mk_tx TransactionType.Deposit 1 1 (some 3)) rfl rfl

/-- C3 amended: the Chargeback arm.  If the referenced transaction exists with
status Disputed and matching client, its status becomes Chargedback, the
amount is added to `available` and subtracted from `held`, and the account is
locked; otherwise only the account's `num_transactions` counter changes. -/
theorem chargeback_arm (e : PaymentEngine) (t : Transaction) (acct : Account)
    (orig : Transaction) (a : ℚ)
    (ht : t.tx_type = TransactionType.Chargeback)
    (hacc : e.accounts t.client_id = some acct) :
    (e.transactions t.tx_id = some orig → orig.status = TransactionStatus.Disputed →
      orig.client_id = t.client_id → orig.amount = some a →
      process_transaction e t = some
        { accounts := updMap e.accounts t.client_id
            ({ acct with num_transactions := acct.num_transactions + 1,
                         funds_available := acct.funds_available + a,
                         funds_held := acct.funds_held - a,
                         locked := true }),
          transactions := updMap e.transactions t.tx_id
            ({ orig with status := TransactionStatus.Chargedback }) }) ∧
    (e.transactions t.tx_id = none →
      process_transaction e t = some
        { e with accounts := updMap e.accounts t.client_id
                               ({ acct with num_transactions := acct.num_transactions + 1 }) }) ∧
    (e.transactions t.tx_id = some orig →
      orig.status ≠ TransactionStatus.Disputed ∨ orig.client_id ≠ t.client_id →
      process_transaction e t = some
        { e with accounts := updMap e.accounts t.client_id
                               ({ acct with num_transactions := acct.num_transactions + 1 }) }) := by
  refine ⟨?_, ?_, ?_⟩
  · intro horig hst hcl ham
    simp [process_transaction, hacc, ht, horig, hst, hcl, ham]
  · intro horig
    simp [process_transaction, hacc, ht, horig]
  · intro horig hfail
    rcases hfail with hfail | hfail <;>
      simp [process_transaction, hacc, ht, horig, hfail]

/-- C3 witness: both chargeback branches at concrete inputs: a successful
chargeback of disputed deposit 1, and an ignored chargeback whose referenced
transaction has status OK. -/
theorem chargeback_arm_witness :
    (process_transaction demo_engine_disputed (mk_tx TransactionType.Chargeback 1 1 none) = some
      { accounts := updMap demo_engine_disputed.accounts 1
          ({ demo_acct_disputed with num_transactions := demo_acct_disputed.num_transactions + 1,
                                     funds_available := demo_acct_disputed.funds_available + 5,
                                     funds_held := demo_acct_disputed.funds_held - 5,
                                     locked := true }),
        transactions := updMap demo_engine_disputed.transactions 1
          ({ demo_disputed with status := TransactionStatus.Chargedback }) }) ∧
    (process_transaction demo_engine (mk_tx TransactionType.Chargeback 1 1 none) = some
      { demo_engine with accounts := updMap demo_engine.accounts 1
                           ({ demo_acct with num_transactions := demo_acct.num_transactions + 1 }) }) :=
  ⟨(chargeback_arm demo_engine_disputed (mk_tx TransactionType.Chargeback 1 1 none)
      demo_acct_disputed demo_disputed 5 rfl rfl).1 rfl rfl rfl rfl,
   (chargeback_arm demo_engine (mk_tx TransactionType.Chargeback 1 1 none)
      demo_acct demo_deposit 5 rfl rfl).2.2 rfl (Or.inl (by decide))⟩

/-- C3 counterexample: an ignored Chargeback (unknown `tx_id`) still changes
account state: the `num_transactions` counter increments, so the claim that no
account state changes is false as stated. -/
theorem ignored_chargeback_changes_count :
    ((process_transaction demo_engine (mk_tx TransactionType.Chargeback 1 99 none)).bind
      (fun e => e.accounts 1)) =
    some ({ demo_acct with num_transactions := 2 }) ∧
    some ({ demo_acct with num_transactions := 2 }) ≠ demo_engine.accounts 1 := by
  constructor
  · norm_num [process_transaction, updMap, demo_engine, demo_acct, demo_deposit, mk_tx]
  · norm_num [demo_engine, updMap, demo_acct]

/-- C5: the Withdrawal arm.  With sufficient available funds, `available` and
`total` each decrease by the amount; otherwise the withdrawal is silently
rejected and only the `num_transactions` counter changes (balances, `held`,
`locked` and the transaction table are untouched). -/
theorem withdrawal_arm (e : PaymentEngine) (t : Transaction) (acct : Account) (a : ℚ)
    (ht : t.tx_type = TransactionType.Withdrawal)
    (hacc : e.accounts t.client_id = some acct)
    (ham : t.amount = some a) :
    (acct.funds_available ≥ a →
      process_transaction e t = some
        { e with accounts := updMap e.accounts t.client_id
                               ({ acct with num_transactions := acct.num_transactions + 1,
                                            funds_available := acct.funds_available - a,
                                            funds_total := acct.funds_total - a }) }) ∧
    (¬ acct.funds_available ≥ a →
      process_transaction e t = some
        { e with accounts := updMap e.accounts t.client_id
                               ({ acct with num_transactions := acct.num_transactions + 1 }) }) := by
  constructor
  · intro h
    simp [process_transaction, hacc, ht, ham, h]
  · intro h
    simp [process_transaction, hacc, ht, ham, h]

/-- C5 witness: the withdrawal arm applied at a concrete account holding 5:
a withdrawal of 3 is applied, a withdrawal of 10 is rejected with only the
counter changing. -/
theorem withdrawal_arm_witness :
    (process_transaction demo_engine (mk_tx TransactionType.Withdrawal 1 2 (some 3)) = some
      { demo_engine with accounts := updMap demo_engine.accounts 1
                           ({ demo_acct with num_transactions := demo_acct.num_transactions + 1,
                                             funds_available := demo_acct.funds_available - 3,
                                             funds_total := demo_acct.funds_total - 3 }) }) ∧
    (process_transaction demo_engine (mk_tx TransactionType.Withdrawal 1 2 (some 10)) = some
      { demo_engine with accounts := updMap demo_engine.accounts 1
                           ({ demo_acct with num_transactions := demo_acct.num_transactions + 1 }) }) :=
  ⟨(withdrawal_arm demo_engine (mk_tx TransactionType.Withdrawal 1 2 (some 3))
      demo_acct 3 rfl rfl rfl).1 (by norm_num [demo_acct]),
   (withdrawal_arm demo_engine (mk_tx TransactionType.Withdrawal 1 2 (some 10))
      demo_acct 10 rfl rfl rfl).2 (by norm_num [demo_acct])⟩

/-- C10: the Dispute arm has no lower-bound precondition on `available`: when
the referenced transaction exists with status OK and matching client, the
effect (`available -= amount; held += amount`) is applied unconditionally, and
on the run Deposit(1,1,5), Withdrawal(1,2,5), Dispute(1,1) the account's
available ends at -5 < 0. -/
theorem dispute_no_lower_bound (e : PaymentEngine) (t : Transaction) (acct : Account)
    (orig : Transaction) (a : ℚ)
    (ht : t.tx_type = TransactionType.Dispute)
    (hacc : e.accounts t.client_id = some acct)
    (horig : e.transactions t.tx_id = some orig)
    (hst : orig.status = TransactionStatus.OK)
    (hcl : orig.client_id = t.client_id)
    (ham : orig.amount = some a) :
    process_transaction e t = some
      { accounts := updMap e.accounts t.client_id
          ({ acct with num_transactions := acct.num_transactions + 1,
                       funds_available := acct.funds_available - a,
                       funds_held := acct.funds_held + a }),
        transactions := updMap e.transactions t.tx_id
          ({ orig with status := TransactionStatus.Disputed }) } ∧
    (((import_csv empty_engine
        [mk_tx TransactionType.Deposit 1 1 (some 5),
         mk_tx TransactionType.Withdrawal 1 2 (some 5),
         mk_tx TransactionType.Dispute 1 1 none]).bind
      (fun e' => e'.accounts 1)).map Account.funds_available = some (-5) ∧ ((-5 : ℚ) < 0)) := by
  refine ⟨?_, ?_, by norm_num⟩
  · simp [process_transaction, hacc, ht, horig, hst, hcl, ham]
  · norm_num [import_csv, import_record, process_transaction, updMap, empty_engine, mk_tx,
      initial_account]

/-- C10 witness: disputing deposit 1 (amount 5) against an account whose
available is 0 still applies the effect, driving available to 0 - 5. -/
theorem dispute_no_lower_bound_witness :
    process_transaction demo_engine_zero (mk_tx TransactionType.Dispute 1 1 none) = some
      { accounts := updMap demo_engine_zero.accounts 1
          ({ demo_acct_zero with num_transactions := demo_acct_zero.num_transactions + 1,
                                 funds_available := demo_acct_zero.funds_available - 5,
                                 funds_held := demo_acct_zero.funds_held + 5 }),
        transactions := updMap demo_engine_zero.transactions 1
          ({ demo_deposit with status := TransactionStatus.Disputed }) } ∧
    (((import_csv empty_engine
        [mk_tx TransactionType.Deposit 1 1 (some 5),
         mk_tx TransactionType.Withdrawal 1 2 (some 5),
         mk_tx TransactionType.Dispute 1 1 none]).bind
      (fun e' => e'.accounts 1)).map Account.funds_available = some (-5) ∧ ((-5 : ℚ) < 0)) :=
  dispute_no_lower_bound demo_engine_zero (mk_tx TransactionType.Dispute 1 1 none)
    demo_acct_zero demo_deposit 5 rfl rfl rfl rfl rfl rfl

/-- C6: a Dispute on a stored deposit with status OK and matching client,
followed immediately by a Resolve on the same `tx_id` by the same client,
restores `available` and `held` to their pre-dispute values exactly and
restores the stored transaction (status back to OK). -/
theorem dispute_resolve_roundtrip (e : PaymentEngine) (c txid : Nat) (acct : Account)
    (orig : Transaction) (a : ℚ)
    (hacc : e.accounts c = some acct)
    (horig : e.transactions txid = some orig)
    (hdep : orig.tx_type = TransactionType.Deposit)
    (hst : orig.status = TransactionStatus.OK)
    (hcl : orig.client_id = c)
    (ham : orig.amount = some a) :
    (((process_transaction e (mk_tx TransactionType.Dispute c txid none)).bind
        (fun e1 => process_transaction e1 (mk_tx TransactionType.Resolve c txid none))).bind
      (fun e2 => e2.accounts c)).map Account.funds_available = some acct.funds_available ∧
    (((process_transaction e (mk_tx TransactionType.Dispute c txid none)).bind
        (fun e1 => process_transaction e1 (mk_tx TransactionType.Resolve c txid none))).bind
      (fun e2 => e2.accounts c)).map Account.funds_held = some acct.funds_held ∧
    ((process_transaction e (mk_tx TransactionType.Dispute c txid none)).bind
        (fun e1 => process_transaction e1 (mk_tx TransactionType.Resolve c txid none))).bind
      (fun e2 => e2.transactions txid) = some orig := by
  obtain ⟨ty, cid, tid, am, st⟩ := orig
  simp only at hdep hst hcl ham
  subst hdep hst hcl ham
  simp [process_transaction, mk_tx, hacc, horig, updMap_self]

/-- C6 witness: the round-trip applied at a concrete engine holding deposit 1
(amount 5) with status OK: available and held return to 5 and 0, and the
stored transaction returns to its original form. -/
theorem dispute_resolve_roundtrip_witness :
    (((process_transaction demo_engine (mk_tx TransactionType.Dispute 1 1 none)).bind
        (fun e1 => process_transaction e1 (mk_tx TransactionType.Resolve 1 1 none))).bind
      (fun e2 => e2.accounts 1)).map Account.funds_available = some demo_acct.funds_available ∧
    (((process_transaction demo_engine (mk_tx TransactionType.Dispute 1 1 none)).bind
        (fun e1 => process_transaction e1 (mk_tx TransactionType.Resolve 1 1 none))).bind
      (fun e2 => e2.accounts 1)).map Account.funds_held = some demo_acct.funds_held ∧
    ((process_transaction demo_engine (mk_tx TransactionType.Dispute 1 1 none)).bind
        (fun e1 => process_transaction e1 (mk_tx TransactionType.Resolve 1 1 none))).bind
      (fun e2 => e2.transactions 1) = some demo_deposit :=
  dispute_resolve_roundtrip demo_engine 1 1 demo_acct demo_deposit 5 rfl rfl rfl rfl rfl rfl

theorem balancedLedger_upd (e : PaymentEngine) (T : Nat → Option Transaction) (c : Nat)
    (v : Account) (hB : BalancedLedger e)
    (hv : v.funds_available + v.funds_held = v.funds_total) :
    BalancedLedger { accounts := updMap e.accounts c v, transactions := T } := by
  intro c' acct h
  dsimp only at h
  by_cases hc : c' = c
  · subst hc
    rw [updMap_self] at h
    cases h
    exact hv
  · rw [updMap_ne _ _ _ _ hc] at h
    exact hB c' acct h

theorem process_preserves_balancedLedger (e : PaymentEngine) (t : Transaction)
    (e' : PaymentEngine) (hB : BalancedLedger e)
    (h : process_transaction e t = some e') : BalancedLedger e' := by
  unfold process_transaction at h
  split at h
  · exact absurd h (by simp)
  · rename_i acct0 hacc
    have hA := hB _ _ hacc
    split at h <;> dsimp only at h
    · -- Deposit
      split at h
      · exact absurd h (by simp)
      · split at h
        · exact absurd h (by simp)
        · injection h with h
          subst h
          refine balancedLedger_upd _ _ _ _ hB ?_
          dsimp only
          linarith
    · -- Withdrawal
      split at h
      · exact absurd h (by simp)
      · split at h
        · injection h with h
          subst h
          refine balancedLedger_upd _ _ _ _ hB ?_
          dsimp only
          linarith
        · injection h with h
          subst h
          exact balancedLedger_upd _ _ _ _ hB (by simpa using hA)
    · -- Dispute
      split at h
      · injection h with h
        subst h
        exact balancedLedger_upd _ _ _ _ hB (by simpa using hA)
      · split at h
        · split at h
          · exact absurd h (by simp)
          · injection h with h
            subst h
            refine balancedLedger_upd _ _ _ _ hB ?_
            dsimp only
            linarith
        · injection h with h
          subst h
          exact balancedLedger_upd _ _ _ _ hB (by simpa using hA)
    · -- Resolve
      split at h
      · injection h with h
        subst h
        exact balancedLedger_upd _ _ _ _ hB (by simpa using hA)
      · split at h
        · split at h
          · exact absurd h (by simp)
          · injection h with h
            subst h
            refine balancedLedger_upd _ _ _ _ hB ?_
            dsimp only
            linarith
        · injection h with h
          subst h
          exact balancedLedger_upd _ _ _ _ hB (by simpa using hA)
    · -- Chargeback
      split at h
      · injection h with h
        subst h
        exact balancedLedger_upd _ _ _ _ hB (by simpa using hA)
      · split at h
        · split at h
          · exact absurd h (by simp)
          · injection h with h
            subst h
            refine balancedLedger_upd _ _ _ _ hB ?_
            dsimp only
            linarith
        · injection h with h
          subst h
          exact balancedLedger_upd _ _ _ _ hB (by simpa using hA)

theorem import_record_preserves_balancedLedger (e : PaymentEngine) (t : Transaction)
    (e' : PaymentEngine) (hB : BalancedLedger e)
    (h : import_record e t = some e') : BalancedLedger e' := by
  unfold import_record at h
  dsimp only at h
  split at h
  · exact process_preserves_balancedLedger _ _ _ hB h
  · refine process_preserves_balancedLedger _ _ _ ?_ h
    exact balancedLedger_upd _ _ _ _ hB (by simp [initial_account])

theorem import_csv_preserves_balancedLedger (ts : List Transaction) :
    ∀ e e', BalancedLedger e → import_csv e ts = some e' → BalancedLedger e' := by
  induction ts with
  | nil =>
    intro e e' hB h
    injection h with h
    subst h
    exact hB
  | cons t ts ih =>
    intro e e' hB h
    unfold import_csv at h
    split at h
    · exact absurd h (by simp)
    · rename_i e1 h1
      exact ih e1 e' (import_record_preserves_balancedLedger e t e1 hB h1) h

/-- C4: after importing any record sequence from an empty ledger, every
account satisfies `available + held = total`. -/
theorem balance_invariant (ts : List Transaction) (c : Nat) (acct : Account)
    (h : (import_csv empty_engine ts).bind (fun e => e.accounts c) = some acct) :
    acct.funds_available + acct.funds_held = acct.funds_total := by
  cases him : import_csv empty_engine ts with
  | none => rw [him] at h; exact absurd h (by simp)
  | some ef =>
    rw [him] at h
    simp only [Option.some_bind] at h
    have hB : BalancedLedger empty_engine := by
      intro c' acct' h'
      exact absurd h' (by simp [empty_engine])
    exact import_csv_preserves_balancedLedger ts empty_engine ef hB him c acct h

/-- C4 witness: the invariant instantiated on the run
Deposit(1,1,5), Dispute(1,1): the final account 1 is (0, 5, 5). -/
theorem balance_invariant_witness :
    ((import_csv empty_engine
        [mk_tx TransactionType.Deposit 1 1 (some 5),
         mk_tx TransactionType.Dispute 1 1 none]).bind
      (fun e => e.accounts 1)) =
    some { client_id := 1, num_transactions := 2, funds_available := 0, funds_held := 5,
           funds_total := 5, locked := false } ∧
    ((0 : ℚ) + 5 = 5) :=
  ⟨by norm_num [import_csv, import_record, process_transaction, updMap, empty_engine, mk_tx,
      initial_account],
   balance_invariant
     [mk_tx TransactionType.Deposit 1 1 (some 5), mk_tx TransactionType.Dispute 1 1 none] 1
     { client_id := 1, num_transactions := 2, funds_available := 0, funds_held := 5,
       funds_total := 5, locked := false }
     (by norm_num [import_csv, import_record, process_transaction, updMap, empty_engine, mk_tx,
       initial_account])⟩

theorem locked_mono_upd (e : PaymentEngine) (T : Nat → Option Transaction) (k : Nat)
    (v : Account) (c : Nat) (acct : Account)
    (hacc : e.accounts c = some acct) (hl : acct.locked = true)
    (hv : c = k → v.locked = true) :
    ∃ acct', ({ accounts := updMap e.accounts k v, transactions := T } :
        PaymentEngine).accounts c = some acct' ∧ acct'.locked = true := by
  by_cases hc : c = k
  · subst hc
    exact ⟨v, by dsimp only; rw [updMap_self], hv rfl⟩
  · exact ⟨acct, by dsimp only; rw [updMap_ne _ _ _ _ hc]; exact hacc, hl⟩

theorem process_locked_mono (e : PaymentEngine) (t : Transaction) (e' : PaymentEngine)
    (c : Nat) (acct : Account)
    (h : process_transaction e t = some e')
    (hacc : e.accounts c = some acct) (hl : acct.locked = true) :
    ∃ acct', e'.accounts c = some acct' ∧ acct'.locked = true := by
  unfold process_transaction at h
  split at h
  · exact absurd h (by simp)
  · rename_i acct0 hacc0
    split at h <;> dsimp only at h
    all_goals repeat' split at h
    all_goals
      first
        | exact Option.noConfusion h
        | (injection h with h
           subst h
           refine locked_mono_upd _ _ _ _ _ _ hacc hl ?_
           intro hc
           subst hc
           rw [hacc0] at hacc
           all_goals
             (have heq := Option.some.inj hacc
              rw [← heq] at hl
              exact hl))

theorem import_record_locked_mono (e : PaymentEngine) (t : Transaction) (e' : PaymentEngine)
    (c : Nat) (acct : Account)
    (h : import_record e t = some e')
    (hacc : e.accounts c = some acct) (hl : acct.locked = true) :
    ∃ acct', e'.accounts c = some acct' ∧ acct'.locked = true := by
  unfold import_record at h
  dsimp only at h
  split at h
  · exact process_locked_mono _ _ _ _ _ h hacc hl
  · rename_i hnone
    refine process_locked_mono _ _ _ _ _ h ?_ hl
    have hc : c ≠ t.client_id := by
      intro hcc
      subst hcc
      rw [hacc] at hnone
      exact hnone rfl
    show ({ e with accounts := updMap e.accounts t.client_id (initial_account t.client_id) } :
        PaymentEngine).accounts c = some acct
    dsimp only
    rw [updMap_ne _ _ _ _ hc]
    exact hacc

/-- C7: the `locked` flag is monotone over any run: if account `c` is locked in `e` and
importing a record sequence from `e` succeeds, account `c` is still locked in
the final state. -/
theorem locked_monotone (ts : List Transaction) :
    ∀ e e' c acct, import_csv e ts = some e' → e.accounts c = some acct →
      acct.locked = true →
      ∃ acct', e'.accounts c = some acct' ∧ acct'.locked = true := by
  induction ts with
  | nil =>
    intro e e' c acct h hacc hl
    injection h with h
    subst h
    exact ⟨acct, hacc, hl⟩
  | cons t ts ih =>
    intro e e' c acct h hacc hl
    unfold import_csv at h
    split at h
    · exact absurd h (by simp)
    · rename_i e1 h1
      obtain ⟨acct1, hacc1, hl1⟩ := import_record_locked_mono e t e1 c acct h1 hacc hl
      exact ih e1 e' c acct1 h hacc1 hl1

/-- C7 witness: a locked account stays locked across a further (ignored)
dispute record. -/
theorem locked_monotone_witness :
    ∃ acct', ({ accounts := updMap demo_engine_locked.accounts 1
                  ({ demo_acct_locked with num_transactions := 4 }),
                transactions := demo_engine_locked.transactions } :
        PaymentEngine).accounts 1 = some acct' ∧ acct'.locked = true :=
  locked_monotone [mk_tx TransactionType.Dispute 1 99 none] demo_engine_locked
    { accounts := updMap demo_engine_locked.accounts 1
        ({ demo_acct_locked with num_transactions := 4 }),
      transactions := demo_engine_locked.transactions }
    1 demo_acct_locked
    (by simp [import_csv, import_record, process_transaction, updMap, demo_engine_locked,
      demo_acct_locked, demo_deposit, mk_tx])
    rfl rfl

theorem updMap_updMap_self {α : Type} (m : Nat → Option α) (k : Nat) (v v' : α) :
    updMap (updMap m k v) k v' = updMap m k v' := by
  funext k'
  by_cases h : k' = k <;> simp [updMap, h]

/-- C9: a record for an unseen client first inserts a fresh account (zero
balances, zero count, unlocked) and only then processes the record; in
particular a Dispute/Resolve/Chargeback for an unseen client whose `tx_id` is
not stored leaves that fresh account with zero balances (only the counter is
1) and the transaction table untouched. -/
theorem account_created_before_processing (e : PaymentEngine) (t : Transaction)
    (hnew : e.accounts t.client_id = none) :
    import_record e t = process_transaction
      { accounts := updMap e.accounts t.client_id (initial_account t.client_id),
        transactions := e.transactions } t ∧
    ((t.tx_type = TransactionType.Dispute ∨ t.tx_type = TransactionType.Resolve ∨
        t.tx_type = TransactionType.Chargeback) →
      e.transactions t.tx_id = none →
      import_record e t = some
        { accounts := updMap e.accounts t.client_id
            ({ initial_account t.client_id with num_transactions := 1 }),
          transactions := e.transactions }) := by
  constructor
  · simp [import_record, hnew]
  · intro hty htx
    rcases hty with h | h | h <;>
      simp [import_record, process_transaction, hnew, h, htx, updMap_self,
        updMap_updMap_self, initial_account]

/-- C9 witness: Scenario F: a Dispute(1, 99) against an empty ledger creates
account 1 with zero balances (counter 1) and changes nothing else. -/
theorem account_created_before_processing_witness :
    import_record empty_engine (mk_tx TransactionType.Dispute 1 99 none) = some
      { accounts := updMap empty_engine.accounts 1
          ({ initial_account 1 with num_transactions := 1 }),
        transactions := empty_engine.transactions } :=
  (account_created_before_processing empty_engine (mk_tx TransactionType.Dispute 1 99 none)
    rfl).2 (Or.inl rfl) rfl

theorem agree_upd (c : Nat) (e1 e2 : PaymentEngine)
    (h : agree_except_locked c e1 e2) (k : Nat) (v1 v2 : Account)
    (hv1 : k ≠ c → v1 = v2)
    (hv2 : k = c → erase_locked v1 = erase_locked v2)
    (T1 T2 : Nat → Option Transaction) (hT : T1 = T2) :
    agree_except_locked c
      { accounts := updMap e1.accounts k v1, transactions := T1 }
      { accounts := updMap e2.accounts k v2, transactions := T2 } := by
  obtain ⟨htx, hoth, hcm⟩ := h
  refine ⟨hT, ?_, ?_⟩
  · intro c' hc'
    dsimp only
    by_cases hk : c' = k
    · subst hk
      rw [updMap_self, updMap_self, hv1 hc']
    · rw [updMap_ne _ _ _ _ hk, updMap_ne _ _ _ _ hk]
      exact hoth c' hc'
  · dsimp only
    by_cases hk : k = c
    · subst hk
      rw [updMap_self, updMap_self]
      simp only [Option.map_some', hv2 rfl]
    · rw [updMap_ne _ _ _ _ (fun hck => hk hck.symm),
        updMap_ne _ _ _ _ (fun hck => hk hck.symm)]
      exact hcm

theorem process_agree_core (c : Nat) (e1 e2 : PaymentEngine)
    (htx : e1.transactions = e2.transactions)
    (hoth : ∀ c', c' ≠ c → e1.accounts c' = e2.accounts c')
    (hcm : (e1.accounts c).map erase_locked = (e2.accounts c).map erase_locked)
    (t : Transaction) (cid n : Nat) (q w r : ℚ) (l1 l2 : Bool)
    (h1 : e1.accounts t.client_id = some
      { client_id := cid, num_transactions := n, funds_available := q,
        funds_held := w, funds_total := r, locked := l1 })
    (h2 : e2.accounts t.client_id = some
      { client_id := cid, num_transactions := n, funds_available := q,
        funds_held := w, funds_total := r, locked := l2 })
    (hll : t.client_id ≠ c → l1 = l2) :
    opt_agree_except_locked c (process_transaction e1 t)
      (process_transaction e2 t) := by
  unfold process_transaction
  rw [h1, h2, htx]
  dsimp only
  cases hty : t.tx_type <;> dsimp only
  case Deposit =>
    by_cases hdup : (e2.transactions t.tx_id).isSome = true
    · rw [if_pos hdup, if_pos hdup]
      exact True.intro
    · rw [if_neg hdup, if_neg hdup]
      cases ham : t.amount with
      | none => exact True.intro
      | some am =>
        dsimp only
        refine agree_upd c e1 e2 ⟨htx, hoth, hcm⟩ t.client_id _ _ ?_ ?_ _ _ rfl
        · intro hk
          first
            | rfl
            | rw [hll hk]
        · intro hkc
          rfl
  case Withdrawal =>
    cases ham : t.amount with
    | none => exact True.intro
    | some am =>
      dsimp only
      by_cases hge : q ≥ am
      · rw [if_pos hge, if_pos hge]
        refine agree_upd c e1 e2 ⟨htx, hoth, hcm⟩ t.client_id _ _ ?_ ?_ _ _ rfl
        · intro hk
          first
            | rfl
            | rw [hll hk]
        · intro hkc
          rfl
      · rw [if_neg hge, if_neg hge]
        refine agree_upd c e1 e2 ⟨htx, hoth, hcm⟩ t.client_id _ _ ?_ ?_ _ _ rfl
        · intro hk
          first
            | rfl
            | rw [hll hk]
        · intro hkc
          rfl
  case Dispute =>
    cases horig : e2.transactions t.tx_id with
    | none =>
      dsimp only
      refine agree_upd c e1 e2 ⟨htx, hoth, hcm⟩ t.client_id _ _ ?_ ?_ _ _ rfl
      · intro hk
        first
          | rfl
          | rw [hll hk]
      · intro hkc
        rfl
    | some orig =>
      dsimp only
      by_cases hcond : orig.status = TransactionStatus.OK ∧
          orig.client_id = t.client_id
      · rw [if_pos hcond, if_pos hcond]
        cases ham : orig.amount with
        | none => exact True.intro
        | some am =>
          dsimp only
          refine agree_upd c e1 e2 ⟨htx, hoth, hcm⟩ t.client_id _ _ ?_ ?_ _ _ rfl
          · intro hk
            first
              | rfl
              | rw [hll hk]
          · intro hkc
            rfl
      · rw [if_neg hcond, if_neg hcond]
        refine agree_upd c e1 e2 ⟨htx, hoth, hcm⟩ t.client_id _ _ ?_ ?_ _ _ rfl
        · intro hk
          first
            | rfl
            | rw [hll hk]
        · intro hkc
          rfl
  case Resolve =>
    cases horig : e2.transactions t.tx_id with
    | none =>
      dsimp only
      refine agree_upd c e1 e2 ⟨htx, hoth, hcm⟩ t.client_id _ _ ?_ ?_ _ _ rfl
      · intro hk
        first
          | rfl
          | rw [hll hk]
      · intro hkc
        rfl
    | some orig =>
      dsimp only
      by_cases hcond : orig.status = TransactionStatus.Disputed ∧
          orig.client_id = t.client_id
      · rw [if_pos hcond, if_pos hcond]
        cases ham : orig.amount with
        | none => exact True.intro
        | some am =>
          dsimp only
          refine agree_upd c e1 e2 ⟨htx, hoth, hcm⟩ t.client_id _ _ ?_ ?_ _ _ rfl
          · intro hk
            first
              | rfl
              | rw [hll hk]
          · intro hkc
            rfl
      · rw [if_neg hcond, if_neg hcond]
        refine agree_upd c e1 e2 ⟨htx, hoth, hcm⟩ t.client_id _ _ ?_ ?_ _ _ rfl
        · intro hk
          first
            | rfl
            | rw [hll hk]
        · intro hkc
          rfl
  case Chargeback =>
    cases horig : e2.transactions t.tx_id with
    | none =>
      dsimp only
      refine agree_upd c e1 e2 ⟨htx, hoth, hcm⟩ t.client_id _ _ ?_ ?_ _ _ rfl
      · intro hk
        first
          | rfl
          | rw [hll hk]
      · intro hkc
        rfl
    | some orig =>
      dsimp only
      by_cases hcond : orig.status = TransactionStatus.Disputed ∧
          orig.client_id = t.client_id
      · rw [if_pos hcond, if_pos hcond]
        cases ham : orig.amount with
        | none => exact True.intro
        | some am =>
          dsimp only
          refine agree_upd c e1 e2 ⟨htx, hoth, hcm⟩ t.client_id _ _ ?_ ?_ _ _ rfl
          · intro hk
            rfl
          · intro hkc
            rfl
      · rw [if_neg hcond, if_neg hcond]
        refine agree_upd c e1 e2 ⟨htx, hoth, hcm⟩ t.client_id _ _ ?_ ?_ _ _ rfl
        · intro hk
          first
            | rfl
            | rw [hll hk]
        · intro hkc
          rfl

/-- C8: processing never reads the `locked` flag: on two ledgers that differ
only in some account's `locked` flag, the same transaction either panics on
both or succeeds on both with results that again differ only in that flag. -/
theorem process_ignores_locked_flag (c : Nat) (e1 e2 : PaymentEngine)
    (t : Transaction) (h : agree_except_locked c e1 e2) :
    opt_agree_except_locked c (process_transaction e1 t)
      (process_transaction e2 t) := by
  obtain ⟨htx, hoth, hcm⟩ := h
  by_cases hcl : t.client_id = c
  · have hcm' : (e1.accounts t.client_id).map erase_locked =
        (e2.accounts t.client_id).map erase_locked := by
      rw [hcl]
      exact hcm
    cases h1 : e1.accounts t.client_id with
    | none =>
      rw [h1] at hcm'
      cases h2 : e2.accounts t.client_id with
      | none =>
        unfold process_transaction
        rw [h1, h2]
        exact True.intro
      | some a2 =>
        rw [h2] at hcm'
        exact Option.noConfusion hcm'
    | some a1 =>
      rw [h1] at hcm'
      cases h2 : e2.accounts t.client_id with
      | none =>
        rw [h2] at hcm'
        exact Option.noConfusion hcm'
      | some a2 =>
        rw [h2] at hcm'
        have herase : erase_locked a1 = erase_locked a2 := by
          simpa using hcm'
        obtain ⟨cid1, n1, q1, w1, r1, l1⟩ := a1
        obtain ⟨cid2, n2, q2, w2, r2, l2⟩ := a2
        simp only [erase_locked, Account.mk.injEq, and_true] at herase
        obtain ⟨rfl, rfl, rfl, rfl, rfl⟩ := herase
        exact process_agree_core c e1 e2 htx hoth hcm t cid1 n1 q1 w1 r1 l1 l2
          h1 h2 (fun hk => absurd hcl hk)
  · have heq := hoth t.client_id hcl
    cases h1 : e1.accounts t.client_id with
    | none =>
      have h2 : e2.accounts t.client_id = none := by
        rw [h1] at heq
        exact heq.symm
      unfold process_transaction
      rw [h1, h2]
      exact True.intro
    | some a =>
      have h2 : e2.accounts t.client_id = some a := by
        rw [h1] at heq
        exact heq.symm
      obtain ⟨cid, n, q, w, r, l⟩ := a
      exact process_agree_core c e1 e2 htx hoth hcm t cid n q w r l l h1 h2
        (fun _ => rfl)

/-- C8 witness: the non-interference theorem applied to two concrete engines
that differ only in account 1's `locked` flag, processing a deposit. -/
theorem process_ignores_locked_flag_witness :
    opt_agree_except_locked 1
      (process_transaction demo_engine (mk_tx TransactionType.Deposit 1 2 (some 3)))
      (process_transaction demo_engine_frozen
        (mk_tx TransactionType.Deposit 1 2 (some 3))) :=
  process_ignores_locked_flag 1 demo_engine demo_engine_frozen
    (mk_tx TransactionType.Deposit 1 2 (some 3))
    ⟨rfl,
     fun c' hc' => by
       simp [demo_engine, demo_engine_frozen, updMap, hc'],
     by simp [demo_engine, demo_engine_frozen, updMap, erase_locked, demo_acct,
       demo_acct_frozen]⟩
